import Mathlib

/- Shallow embedding of the ARTIQ runtime session controller
   (src/session.rs): the session state machine, the host-message handler
   `process_host_message`, the kernel-message handler
   `process_kern_message`, and one iteration of `host_kernel_worker`.

   External collaborators (network stack, configuration store, RTIO
   clock, watchdog set, cache implementation, wire codecs) are outside
   the embedded file; their results are supplied by environment records
   and the calls made to them are recorded as `Act`s in a trace, in
   program order.  `kern_recv` results are supplied as a queue of
   mailbox messages (`none` models an invalid kernel CPU pointer, which
   `kern_recv_notrace` rejects). -/

/-- Kernel phase of a session (`enum KernelState` in session.rs). -/
inductive KernelState
  | Absent
  | Loaded
  | Running
  | RpcWait
  deriving Repr, DecidableEq

/-- Persistent cross-session state (`struct Congress`).  `now` is an
unsigned 64-bit timestamp in the source; the handlers only store and
reload it, so it is modelled as `Nat`.  The cache implementation is not
part of the embedded file; `borrows` is modelled from the spec: the
number of outstanding cache borrows, incremented by `cache.get` and
reset in bulk by `cache.unborrow`. -/
structure Congress where
  now : Nat
  borrows : Nat
  deriving Repr, DecidableEq

/-- Per-connection state (`struct Session`).  The watchdog set and the
string interner are external collaborators: watchdog operations are
answered by the environment, and interned exception strings do not
affect any observable modelled here. -/
structure Session where
  congress : Congress
  kernel_state : KernelState
  log_buffer : String
  deriving Repr, DecidableEq

/-- `Session::new`: fresh session over a congress, initial state Absent. -/
def Session.new (c : Congress) : Session :=
  ⟨c, KernelState.Absent, ""⟩

/-- `Session::running`: true in Running and RpcWait, false in Absent and
Loaded. -/
def Session.running (s : Session) : Bool :=
  match s.kernel_state with
  | KernelState.Absent => false
  | KernelState.Loaded => false
  | KernelState.Running => true
  | KernelState.RpcWait => true

/-- `Session::flush_log_buffer`.  The source slices
`log_buffer[len - 1 ..]`; when the buffer is empty `len - 1` underflows
`usize` and the slice indexing panics, modelled by `none`.  Otherwise,
when the buffer ends in a newline every line is logged and the buffer is
cleared.  Rust byte indexing is modelled on characters (kernel log text
is treated as ASCII). -/
def flush_log_buffer (buf : String) : Option String :=
  if buf.length = 0 then none
  else if buf.takeRight 1 = "\n" then some "" else some buf

/-- Messages the kernel CPU posts to the mailbox (the received half of
`kern::Message`).  `Log` carries the already-formatted text of its
format arguments. -/
inductive KernMessage
  | LoadReply (ok : Bool)
  | RpcRecvRequest (slot : Nat)
  | Log (text : String)
  | LogSlice (text : String)
  | NowInitRequest
  | NowSave (t : Nat)
  | WatchdogSetRequest (ms : Nat)
  | WatchdogClear (id : Nat)
  | RpcSend (async : Bool) (service : Nat) (tag : String)
  | CacheGetRequest (key : String)
  | CachePutRequest (key : String) (value : List Int)
  | RunFinished
  | RunException (name message file function : String) (param : Int) (line column : Nat)
  deriving Repr, DecidableEq

/-- Messages sent to the kernel CPU with `kern_send` (the sent half of
`kern::Message`); payload pointers are elided. -/
inductive KernSendMsg
  | LoadRequest
  | NowInitReply (now : Nat)
  | WatchdogSetReply (id : Nat)
  | RpcRecvReplyOk (size : Nat)
  | RpcRecvReplyErr
  | CacheGetReply
  | CachePutReply (succeeded : Bool)
  deriving Repr, DecidableEq

/-- Replies written to the host stream (`host::Reply`); opaque byte
payloads are elided. -/
inductive HostReply
  | Ident
  | Log (text : String)
  | FlashRead
  | FlashOk
  | FlashError
  | ClockSwitchCompleted
  | ClockSwitchFailed
  | LoadCompleted
  | LoadFailed
  | KernelStartupFailed
  | RpcRequest (async : Bool)
  | KernelFinished
  | KernelException (name message file function : String) (param : Int) (line column : Nat)
  | WatchdogExpired
  | ClockFailure
  deriving Repr, DecidableEq

/-- Requests read from the host stream (`host::Request`). -/
inductive HostRequest
  | Ident
  | Log
  | LogClear
  | FlashRead (key : String)
  | FlashWrite (key value : String)
  | FlashRemove (key : String)
  | FlashErase
  | SwitchClock (clk : Nat)
  | LoadKernel (image : List Nat)
  | RunKernel
  | RpcReply (tag : String)
  | RpcException (name message : String) (param : Int) (file : String)
      (line column : Nat) (function : String)
  deriving Repr, DecidableEq

/-- Observable actions of the handlers, in program order.  `kernRecv`
records a validated mailbox message being consumed by a `kern_recv`
continuation; `hostWriteRaw` records raw payload bytes produced by an
external codec (`rpc::send_args` or an async queue blob). -/
inductive Act
  | kernSend (m : KernSendMsg)
  | kernRecv (m : KernMessage)
  | kernAck
  | hostWrite (r : HostReply)
  | hostWriteRaw
  | kernelStart
  | kernelStop
  | unborrow
  deriving Repr, DecidableEq

/-- Result of one `process_host_message` call: `ok = false` models a
propagated `io::Error`, which aborts the session. -/
structure HStep where
  ok : Bool
  session : Session
  trace : List Act
  deriving Repr, DecidableEq

/-- Result kind of one `process_kern_message` call: a panic, a
propagated `io::Error`, or `Ok(terminate)`. -/
inductive KOutcome
  | panic
  | err
  | ok (terminate : Bool)
  deriving Repr, DecidableEq

/-- Result of one `process_kern_message` call. -/
structure KStep where
  outcome : KOutcome
  session : Session
  trace : List Act
  deriving Repr, DecidableEq

/-- Environment of one `process_host_message` call: the successive
results of its `kern_recv` calls (`none` = invalid kernel CPU pointer;
an exhausted queue models a mailbox that never delivers), the sizes the
external decoder `rpc::recv_return` passes to its allocator
continuation, and the results of the clock, flash and logger
collaborators. -/
structure HostEnv where
  kernQueue : List (Option KernMessage)
  recvReturnSizes : List Nat
  switchClockOk : Bool
  flashWriteOk : Bool
  logContents : String
  deriving Repr, DecidableEq

/-- `kern_load`: refuse while running, else `kernel::start`, send
`LoadRequest`, and receive the `LoadReply`; only `LoadReply(Ok)` moves
the session to Loaded. -/
def kern_load (s : Session) (queue : List (Option KernMessage)) : HStep :=
  if s.running then ⟨false, s, []⟩
  else
    match queue with
    | some (KernMessage.LoadReply true) :: _ =>
        ⟨true, { s with kernel_state := KernelState.Loaded },
          [Act.kernelStart, Act.kernSend KernSendMsg.LoadRequest,
           Act.kernRecv (KernMessage.LoadReply true)]⟩
    | some m :: _ =>
        ⟨false, s,
          [Act.kernelStart, Act.kernSend KernSendMsg.LoadRequest, Act.kernRecv m]⟩
    | _ =>
        ⟨false, s, [Act.kernelStart, Act.kernSend KernSendMsg.LoadRequest]⟩

/-- `kern_run`: refuse unless Loaded, else move to Running and
acknowledge the mailbox. -/
def kern_run (s : Session) : HStep :=
  if s.kernel_state = KernelState.Loaded then
    ⟨true, { s with kernel_state := KernelState.Running }, [Act.kernAck]⟩
  else ⟨false, s, []⟩

/-- Modelled from the spec: the allocator-continuation chain that the
external decoder `rpc::recv_return` drives during an `RpcReply`.  For
each size it passes to the continuation, the controller sends
`RpcRecvReply(Ok(size))` and then receives the next `RpcRecvRequest`
from the mailbox; any other message (or an invalid pointer) is a
protocol error.  Returns success, the trace, and the unconsumed queue. -/
def rpc_recv_chain : List (Option KernMessage) → List Nat →
    Bool × List Act × List (Option KernMessage)
  | queue, [] => (true, [], queue)
  | some (KernMessage.RpcRecvRequest slot) :: q, size :: rest =>
      let r := rpc_recv_chain q rest
      (r.1, Act.kernSend (KernSendMsg.RpcRecvReplyOk size)
              :: Act.kernRecv (KernMessage.RpcRecvRequest slot) :: r.2.1, r.2.2)
  | some m :: q, size :: _ =>
      (false, [Act.kernSend (KernSendMsg.RpcRecvReplyOk size), Act.kernRecv m],
        some m :: q)
  | queue, size :: _ =>
      (false, [Act.kernSend (KernSendMsg.RpcRecvReplyOk size)], queue)

/-- `process_host_message`: interpret one decoded host request. -/
def process_host_message (req : HostRequest) (env : HostEnv) (s : Session) : HStep :=
  match req with
  | HostRequest.Ident => ⟨true, s, [Act.hostWrite HostReply.Ident]⟩
  | HostRequest.Log => ⟨true, s, [Act.hostWrite (HostReply.Log env.logContents)]⟩
  | HostRequest.LogClear => ⟨true, s, [Act.hostWrite (HostReply.Log "")]⟩
  | HostRequest.FlashRead _ => ⟨true, s, [Act.hostWrite HostReply.FlashRead]⟩
  | HostRequest.FlashWrite _ _ =>
      ⟨true, s, [Act.hostWrite
        (if env.flashWriteOk then HostReply.FlashOk else HostReply.FlashError)]⟩
  | HostRequest.FlashRemove _ => ⟨true, s, [Act.hostWrite HostReply.FlashOk]⟩
  | HostRequest.FlashErase => ⟨true, s, [Act.hostWrite HostReply.FlashOk]⟩
  | HostRequest.SwitchClock _ =>
      if s.running then ⟨false, s, []⟩
      else ⟨true, s, [Act.hostWrite
        (if env.switchClockOk then HostReply.ClockSwitchCompleted
         else HostReply.ClockSwitchFailed)]⟩
  | HostRequest.LoadKernel _ =>
      let r := kern_load s env.kernQueue
      if r.ok then ⟨true, r.session, r.trace ++ [Act.hostWrite HostReply.LoadCompleted]⟩
      else ⟨true, r.session, r.trace ++ [Act.kernAck, Act.hostWrite HostReply.LoadFailed]⟩
  | HostRequest.RunKernel =>
      let r := kern_run s
      if r.ok then r
      else ⟨true, r.session, r.trace ++ [Act.hostWrite HostReply.KernelStartupFailed]⟩
  | HostRequest.RpcReply _ =>
      if s.kernel_state = KernelState.RpcWait then
        match env.kernQueue with
        | some (KernMessage.RpcRecvRequest slot) :: q =>
            let r := rpc_recv_chain q env.recvReturnSizes
            if r.1 then
              ⟨true, { s with kernel_state := KernelState.Running },
                Act.kernRecv (KernMessage.RpcRecvRequest slot) :: r.2.1
                  ++ [Act.kernSend (KernSendMsg.RpcRecvReplyOk 0)]⟩
            else ⟨false, s, Act.kernRecv (KernMessage.RpcRecvRequest slot) :: r.2.1⟩
        | some m :: _ => ⟨false, s, [Act.kernRecv m]⟩
        | _ => ⟨false, s, []⟩
      else ⟨false, s, []⟩
  | HostRequest.RpcException _ _ _ _ _ _ _ =>
      if s.kernel_state = KernelState.RpcWait then
        match env.kernQueue with
        | some (KernMessage.RpcRecvRequest slot) :: _ =>
            ⟨true, { s with kernel_state := KernelState.Running },
              [Act.kernRecv (KernMessage.RpcRecvRequest slot),
               Act.kernSend KernSendMsg.RpcRecvReplyErr]⟩
        | some m :: _ => ⟨false, s, [Act.kernRecv m]⟩
        | _ => ⟨false, s, []⟩
      else ⟨false, s, []⟩

/-- Body of `process_kern_message` for a message that passed the state
gate in Running state.  `hasStream` is whether a host stream is attached
(`Some(stream)` in the source); `watchdogSetResult` is the external
watchdog set's answer to `set_ms`; `cachePutOk` is the external cache's
answer to `put`. -/
def process_kern_running (hasStream : Bool) (s : Session) (request : KernMessage)
    (watchdogSetResult : Option Nat) (cachePutOk : Bool) : KStep :=
  match request with
  | KernMessage.Log text =>
      let buf := s.log_buffer ++ text
      match flush_log_buffer buf with
      | none => ⟨KOutcome.panic, { s with log_buffer := buf }, []⟩
      | some buf2 => ⟨KOutcome.ok false, { s with log_buffer := buf2 }, [Act.kernAck]⟩
  | KernMessage.LogSlice text =>
      let buf := s.log_buffer ++ text
      match flush_log_buffer buf with
      | none => ⟨KOutcome.panic, { s with log_buffer := buf }, []⟩
      | some buf2 => ⟨KOutcome.ok false, { s with log_buffer := buf2 }, [Act.kernAck]⟩
  | KernMessage.NowInitRequest =>
      ⟨KOutcome.ok false, s, [Act.kernSend (KernSendMsg.NowInitReply s.congress.now)]⟩
  | KernMessage.NowSave t =>
      ⟨KOutcome.ok false, { s with congress := { s.congress with now := t } },
        [Act.kernAck]⟩
  | KernMessage.WatchdogSetRequest _ =>
      match watchdogSetResult with
      | none => ⟨KOutcome.err, s, []⟩
      | some id => ⟨KOutcome.ok false, s, [Act.kernSend (KernSendMsg.WatchdogSetReply id)]⟩
  | KernMessage.WatchdogClear _ => ⟨KOutcome.ok false, s, [Act.kernAck]⟩
  | KernMessage.RpcSend async _ _ =>
      if hasStream then
        ⟨KOutcome.ok false,
          if async then s else { s with kernel_state := KernelState.RpcWait },
          [Act.hostWrite (HostReply.RpcRequest async), Act.hostWriteRaw, Act.kernAck]⟩
      else ⟨KOutcome.err, s, []⟩
  | KernMessage.CacheGetRequest _ =>
      ⟨KOutcome.ok false,
        { s with congress := { s.congress with borrows := s.congress.borrows + 1 } },
        [Act.kernSend KernSendMsg.CacheGetReply]⟩
  | KernMessage.CachePutRequest _ _ =>
      ⟨KOutcome.ok false, s, [Act.kernSend (KernSendMsg.CachePutReply cachePutOk)]⟩
  | KernMessage.RunFinished =>
      let s2 := { s with kernel_state := KernelState.Absent,
                         congress := { s.congress with borrows := 0 } }
      if hasStream then
        ⟨KOutcome.ok false, s2,
          [Act.kernelStop, Act.unborrow, Act.hostWrite HostReply.KernelFinished]⟩
      else ⟨KOutcome.ok true, s2, [Act.kernelStop, Act.unborrow]⟩
  | KernMessage.RunException name message file function param line column =>
      let s2 := { s with kernel_state := KernelState.Absent,
                         congress := { s.congress with borrows := 0 } }
      if hasStream then
        ⟨KOutcome.ok false, s2,
          [Act.kernelStop, Act.unborrow,
           Act.hostWrite (HostReply.KernelException name message file function
             param line column)]⟩
      else ⟨KOutcome.ok true, s2, [Act.kernelStop, Act.unborrow]⟩
  | KernMessage.LoadReply _ => ⟨KOutcome.err, s, []⟩
  | KernMessage.RpcRecvRequest _ => ⟨KOutcome.err, s, []⟩

/-- `process_kern_message`: interpret one pending mailbox message.
`none` models an invalid kernel CPU pointer (rejected by
`kern_recv_notrace`).  The state gate: `LoadReply` in Loaded and
`RpcRecvRequest` in RpcWait are standby (ignored, message left pending);
everything else proceeds only in Running; any other combination is a
protocol error. -/
def process_kern_message (hasStream : Bool) (s : Session) (msg : Option KernMessage)
    (watchdogSetResult : Option Nat) (cachePutOk : Bool) : KStep :=
  match msg with
  | none => ⟨KOutcome.err, s, []⟩
  | some request =>
    match request, s.kernel_state with
    | KernMessage.LoadReply _, KernelState.Loaded =>
        ⟨KOutcome.ok false, s, [Act.kernRecv request]⟩
    | KernMessage.RpcRecvRequest _, KernelState.RpcWait =>
        ⟨KOutcome.ok false, s, [Act.kernRecv request]⟩
    | _, KernelState.Running =>
        let r := process_kern_running hasStream s request watchdogSetResult cachePutOk
        ⟨r.outcome, r.session, Act.kernRecv request :: r.trace⟩
    | _, _ => ⟨KOutcome.err, s, [Act.kernRecv request]⟩

/-- `process_kern_queued_rpc`: one async RPC queue entry becomes an
`RpcRequest(async = true)` header plus the raw payload. -/
def process_kern_queued_rpc_trace : List Act :=
  [Act.hostWrite (HostReply.RpcRequest true), Act.hostWriteRaw]

/-- The `while !rpc_queue::empty()` drain at the top of each
`host_kernel_worker` iteration: the whole queue is emitted. -/
def drain_rpc_queue (q : List Nat) : List Act :=
  (q.map (fun _ => process_kern_queued_rpc_trace)).flatten

/-- Environment of one `host_kernel_worker` loop iteration. -/
structure WorkerEnv where
  rpcQueue : List Nat
  hostReadable : Bool
  hostReq : HostRequest
  hostEnv : HostEnv
  mailboxPending : Bool
  kernMsg : Option KernMessage
  watchdogSetResult : Option Nat
  cachePutOk : Bool
  watchdogExpired : Bool
  rtioOk : Bool
  deriving Repr, DecidableEq

/-- Host step of one worker iteration: process one host message iff the
stream is readable. -/
def worker_host_phase (env : WorkerEnv) (s : Session) : HStep :=
  if env.hostReadable then process_host_message env.hostReq env.hostEnv s
  else ⟨true, s, []⟩

/-- Kernel step of one worker iteration: process one kernel message iff
the mailbox holds one.  The host worker passes `Some(stream)`. -/
def worker_kern_phase (env : WorkerEnv) (s : Session) : KStep :=
  if env.mailboxPending then
    process_kern_message true s env.kernMsg env.watchdogSetResult env.cachePutOk
  else ⟨KOutcome.ok false, s, []⟩

/-- Watchdog and RTIO clock checks at the end of one worker iteration,
guarded by `kernel_state == Running`; `false` aborts the session. -/
def worker_checks (env : WorkerEnv) (s : Session) : Bool × List Act :=
  if s.kernel_state = KernelState.Running then
    if env.watchdogExpired then (false, [Act.hostWrite HostReply.WatchdogExpired])
    else if env.rtioOk then (true, [])
    else (false, [Act.hostWrite HostReply.ClockFailure])
  else (true, [])

/-- Result of one worker loop iteration: panic, session-aborting error,
or continue into the next iteration. -/
inductive IterResult
  | panic (s : Session) (tr : List Act)
  | err (s : Session) (tr : List Act)
  | cont (s : Session) (tr : List Act)
  deriving Repr, DecidableEq

/-- Trace of an iteration result. -/
def iterTrace : IterResult → List Act
  | IterResult.panic _ tr => tr
  | IterResult.err _ tr => tr
  | IterResult.cont _ tr => tr

/-- One iteration of the `host_kernel_worker` loop: drain the async RPC
queue, then at most one host message, then at most one kernel message,
then the Running-only watchdog and clock checks. -/
def host_kernel_worker_iter (env : WorkerEnv) (s : Session) : IterResult :=
  let tr0 := drain_rpc_queue env.rpcQueue
  let h := worker_host_phase env s
  if h.ok then
    let k := worker_kern_phase env h.session
    match k.outcome with
    | KOutcome.panic => IterResult.panic k.session (tr0 ++ h.trace ++ k.trace)
    | KOutcome.err => IterResult.err k.session (tr0 ++ h.trace ++ k.trace)
    | KOutcome.ok _ =>
        let c := worker_checks env k.session
        if c.1 then IterResult.cont k.session (tr0 ++ h.trace ++ k.trace ++ c.2)
        else IterResult.err k.session (tr0 ++ h.trace ++ k.trace ++ c.2)
  else IterResult.err h.session (tr0 ++ h.trace)

/-- The kernel-state transition edges the specification permits. -/
def allowedEdge : KernelState → KernelState → Bool
  | KernelState.Absent, KernelState.Loaded => true
  | KernelState.Loaded, KernelState.Running => true
  | KernelState.Running, KernelState.RpcWait => true
  | KernelState.RpcWait, KernelState.Running => true
  | KernelState.Running, KernelState.Absent => true
  | _, _ => false

/-- Actions that are a `kern_send` or a `kern_acknowledge`. -/
def isSendOrAck : Act → Bool
  | Act.kernSend _ => true
  | Act.kernAck => true
  | _ => false

/-- Number of `kern_send` and `kern_acknowledge` actions in a trace. -/
def sendAckCount (tr : List Act) : Nat :=
  (tr.filter isSendOrAck).length

/-- The standby combinations of `process_kern_message`. -/
def isStandby : KernMessage → KernelState → Bool
  | KernMessage.LoadReply _, KernelState.Loaded => true
  | KernMessage.RpcRecvRequest _, KernelState.RpcWait => true
  | _, _ => false

/-- The terminal kernel messages (`RunFinished`, `RunException`). -/
def isTerminal : KernMessage → Bool
  | KernMessage.RunFinished => true
  | KernMessage.RunException _ _ _ _ _ _ _ => true
  | _ => false

/-- Actions that emit `WatchdogExpired` or `ClockFailure` to the host. -/
def isCheckReply : Act → Bool
  | Act.hostWrite HostReply.WatchdogExpired => true
  | Act.hostWrite HostReply.ClockFailure => true
  | _ => false

/-- Expected trace of the `recv_return` allocator chain on a list of
(size, next slot) pairs. -/
def rpcChainTrace : List (Nat × Nat) → List Act
  | [] => []
  | (size, slot) :: rest =>
      Act.kernSend (KernSendMsg.RpcRecvReplyOk size)
        :: Act.kernRecv (KernMessage.RpcRecvRequest slot) :: rpcChainTrace rest

/-- Concrete environment with empty collaborator results, for witnesses. -/
def hostEnv0 : HostEnv := ⟨[], [], true, true, ""⟩

/-- Concrete session in a given state, for witnesses. -/
def sessionIn (st : KernelState) : Session := ⟨⟨0, 0⟩, st, ""⟩

/-- C1 counterexample: `LoadKernel` received while Running — a state the
request table does not allow it in — does not abort the session:
`process_host_message` returns success, acknowledges the mailbox and
replies `LoadFailed`; likewise `RunKernel` while Absent returns success
with a `KernelStartupFailed` reply. -/
theorem C1_counterexample :
    (process_host_message (HostRequest.LoadKernel []) hostEnv0
        (sessionIn KernelState.Running)).ok = true ∧
    (process_host_message (HostRequest.LoadKernel []) hostEnv0
        (sessionIn KernelState.Running)).trace
      = [Act.kernAck, Act.hostWrite HostReply.LoadFailed] ∧
    (process_host_message HostRequest.RunKernel hostEnv0
        (sessionIn KernelState.Absent)).ok = true ∧
    (process_host_message HostRequest.RunKernel hostEnv0
        (sessionIn KernelState.Absent)).trace
      = [Act.hostWrite HostReply.KernelStartupFailed] := by
  refine ⟨rfl, rfl, rfl, rfl⟩

/-- C1 (amended): among the requests with state restrictions,
`SwitchClock` while Running or RpcWait, and `RpcReply` or `RpcException`
while not RpcWait, are protocol errors that return an error aborting the
session; but `LoadKernel` while Running or RpcWait and `RunKernel` while
not Loaded are caught inside the handler, which replies `LoadFailed`
(after acknowledging the mailbox) respectively `KernelStartupFailed` and
returns success, so the session continues. -/
theorem C1_state_gate (env : HostEnv) (s : Session) (clk : Nat) (tag : String)
    (n m fl fn : String) (p : Int) (ln col : Nat) (img : List Nat) :
    ((s.kernel_state = KernelState.Running ∨ s.kernel_state = KernelState.RpcWait) →
      process_host_message (HostRequest.SwitchClock clk) env s = ⟨false, s, []⟩) ∧
    (s.kernel_state ≠ KernelState.RpcWait →
      process_host_message (HostRequest.RpcReply tag) env s = ⟨false, s, []⟩) ∧
    (s.kernel_state ≠ KernelState.RpcWait →
      process_host_message (HostRequest.RpcException n m p fl ln col fn) env s
        = ⟨false, s, []⟩) ∧
    ((s.kernel_state = KernelState.Running ∨ s.kernel_state = KernelState.RpcWait) →
      process_host_message (HostRequest.LoadKernel img) env s
        = ⟨true, s, [Act.kernAck, Act.hostWrite HostReply.LoadFailed]⟩) ∧
    (s.kernel_state ≠ KernelState.Loaded →
      process_host_message HostRequest.RunKernel env s
        = ⟨true, s, [Act.hostWrite HostReply.KernelStartupFailed]⟩) := by
  refine ⟨?_, ?_, ?_, ?_, ?_⟩
  · rintro (h | h) <;> simp [process_host_message, Session.running, h]
  · intro h
    simp [process_host_message, h]
  · intro h
    simp [process_host_message, h]
  · rintro (h | h) <;> simp [process_host_message, kern_load, Session.running, h]
  · intro h
    simp [process_host_message, kern_run, h]

/-- C1 witness: the amended theorem applied at concrete inputs — a
Running session aborts on `SwitchClock` but survives `LoadKernel`, and
an Absent session survives `RunKernel`. -/
theorem C1_witness :
    process_host_message (HostRequest.SwitchClock 0) hostEnv0 (sessionIn KernelState.Running)
      = ⟨false, sessionIn KernelState.Running, []⟩ ∧
    process_host_message (HostRequest.LoadKernel []) hostEnv0 (sessionIn KernelState.Running)
      = ⟨true, sessionIn KernelState.Running,
          [Act.kernAck, Act.hostWrite HostReply.LoadFailed]⟩ ∧
    process_host_message HostRequest.RunKernel hostEnv0 (sessionIn KernelState.Absent)
      = ⟨true, sessionIn KernelState.Absent,
          [Act.hostWrite HostReply.KernelStartupFailed]⟩ := by
  have h1 := C1_state_gate hostEnv0 (sessionIn KernelState.Running) 0 "" "" "" "" "" 0 0 0 []
  have h2 := C1_state_gate hostEnv0 (sessionIn KernelState.Absent) 0 "" "" "" "" "" 0 0 0 []
  exact ⟨h1.1 (Or.inl rfl), h1.2.2.2.1 (Or.inl rfl), h2.2.2.2.2 (by decide)⟩

/-- C8 counterexample: a session whose congress holds `now = 5`
processes `NowSave(3)` in Running state and `congress.now` drops to 3,
so `congress.now` is not monotonic. -/
theorem C8_counterexample :
    (process_kern_message true ⟨⟨5, 0⟩, KernelState.Running, ""⟩
        (some (KernMessage.NowSave 3)) none true).session.congress.now = 3 ∧
    (3 : Nat) < 5 := by
  exact ⟨rfl, by decide⟩

/-- C8 (amended): on `NowSave(t)` in Running state the handler assigns
`congress.now = t` unconditionally and acknowledges; the controller does
not enforce monotonicity, so `congress.now` decreases whenever a kernel
saves a value smaller than the current one. -/
theorem C8_now_save_assigns (hasStream : Bool) (s : Session) (t : Nat)
    (wsr : Option Nat) (cpo : Bool)
    (hst : s.kernel_state = KernelState.Running) :
    process_kern_message hasStream s (some (KernMessage.NowSave t)) wsr cpo =
      ⟨KOutcome.ok false, { s with congress := { s.congress with now := t } },
        [Act.kernRecv (KernMessage.NowSave t), Act.kernAck]⟩ := by
  simp [process_kern_message, process_kern_running, hst]

/-- C8 witness: the amended theorem at `now = 5`, `NowSave(3)`. -/
theorem C8_witness :
    process_kern_message true ⟨⟨5, 0⟩, KernelState.Running, ""⟩
        (some (KernMessage.NowSave 3)) none true =
      ⟨KOutcome.ok false, ⟨⟨3, 0⟩, KernelState.Running, ""⟩,
        [Act.kernRecv (KernMessage.NowSave 3), Act.kernAck]⟩ := by
  have h := C8_now_save_assigns true ⟨⟨5, 0⟩, KernelState.Running, ""⟩ 3 none true rfl
  simpa using h

/-- C9: `flush_log_buffer` on an empty buffer evaluates
`log_buffer.len() - 1`, which underflows and makes the slice index
panic; in particular a kernel `LogSlice("")` received in Running state
with an empty log buffer makes `process_kern_message` panic instead of
returning normally or with an error. -/
theorem C9_flush_empty_panics (hasStream : Bool) (s : Session)
    (wsr : Option Nat) (cpo : Bool)
    (hst : s.kernel_state = KernelState.Running) (hbuf : s.log_buffer = "") :
    flush_log_buffer "" = none ∧
    (process_kern_message hasStream s (some (KernMessage.LogSlice "")) wsr cpo).outcome
      = KOutcome.panic := by
  constructor
  · rfl
  · simp [process_kern_message, process_kern_running, hst, hbuf, flush_log_buffer]

/-- C9 witness: the panic at a concrete fresh Running session. -/
theorem C9_witness :
    flush_log_buffer "" = none ∧
    (process_kern_message true (sessionIn KernelState.Running)
        (some (KernMessage.LogSlice "")) none true).outcome = KOutcome.panic :=
  C9_flush_empty_panics true (sessionIn KernelState.Running) none true rfl rfl

/-- C4: the state gate of `process_kern_message` — a `LoadReply` in
Loaded and an `RpcRecvRequest` in RpcWait are standby (returning false
with no action besides consuming the message); any non-standby message
in a state other than Running is a fatal protocol error; and `LoadReply`
or `RpcRecvRequest` reaching the Running dispatch is also a fatal
protocol error, so every other message kind is handled only in Running. -/
theorem C4_kern_state_gate (hasStream : Bool) (s : Session) (msg : KernMessage)
    (wsr : Option Nat) (cpo : Bool) (b : Bool) (sl : Nat) :
    (isStandby msg s.kernel_state = true →
      process_kern_message hasStream s (some msg) wsr cpo
        = ⟨KOutcome.ok false, s, [Act.kernRecv msg]⟩) ∧
    (isStandby msg s.kernel_state = false → s.kernel_state ≠ KernelState.Running →
      process_kern_message hasStream s (some msg) wsr cpo
        = ⟨KOutcome.err, s, [Act.kernRecv msg]⟩) ∧
    (s.kernel_state = KernelState.Running →
      (process_kern_message hasStream s (some (KernMessage.LoadReply b)) wsr cpo).outcome
          = KOutcome.err ∧
      (process_kern_message hasStream s (some (KernMessage.RpcRecvRequest sl)) wsr
          cpo).outcome = KOutcome.err) := by
  refine ⟨?_, ?_, ?_⟩
  · intro h
    cases msg <;> cases hs : s.kernel_state <;>
      simp_all [isStandby, process_kern_message]
  · intro h hr
    cases msg <;> cases hs : s.kernel_state <;>
      simp_all [isStandby, process_kern_message]
  · intro h
    constructor <;> simp [process_kern_message, process_kern_running, h]

/-- C4 witness: the gate at concrete inputs — `LoadReply(Ok)` in Loaded
stands by, `NowSave` in Loaded is a protocol error, and `LoadReply(Ok)`
in Running is a protocol error. -/
theorem C4_witness :
    process_kern_message true (sessionIn KernelState.Loaded)
        (some (KernMessage.LoadReply true)) none true
      = ⟨KOutcome.ok false, sessionIn KernelState.Loaded,
          [Act.kernRecv (KernMessage.LoadReply true)]⟩ ∧
    process_kern_message true (sessionIn KernelState.Loaded)
        (some (KernMessage.NowSave 0)) none true
      = ⟨KOutcome.err, sessionIn KernelState.Loaded,
          [Act.kernRecv (KernMessage.NowSave 0)]⟩ ∧
    (process_kern_message true (sessionIn KernelState.Running)
        (some (KernMessage.LoadReply true)) none true).outcome = KOutcome.err := by
  have h1 := C4_kern_state_gate true (sessionIn KernelState.Loaded)
    (KernMessage.LoadReply true) none true true 0
  have h2 := C4_kern_state_gate true (sessionIn KernelState.Loaded)
    (KernMessage.NowSave 0) none true true 0
  have h3 := C4_kern_state_gate true (sessionIn KernelState.Running)
    (KernMessage.NowSave 0) none true true 0
  exact ⟨h1.1 rfl, h2.2.1 rfl (by decide), (h3.2.2 rfl).1⟩

/-- C5 counterexample: `RunFinished` processed in Running state with a
host stream attached completes successfully, yet performs neither a
`kern_send` nor a `kern_acknowledge` — the kernel CPU is stopped
instead — so it is false that exactly one of the two occurs for every
kernel message. -/
theorem C5_counterexample :
    (process_kern_message true (sessionIn KernelState.Running)
        (some KernMessage.RunFinished) none true).outcome = KOutcome.ok false ∧
    sendAckCount (process_kern_message true (sessionIn KernelState.Running)
        (some KernMessage.RunFinished) none true).trace = 0 := by
  refine ⟨rfl, rfl⟩

/-- C5 (amended): for every kernel message whose processing completes
successfully, exactly one of {reply via `kern_send`, explicit
`kern_acknowledge`} occurs, except the terminal messages `RunFinished`
and `RunException` (after which the kernel CPU has been stopped) and the
standby combinations, which perform neither. -/
theorem C5_send_ack_discipline (hasStream : Bool) (s : Session) (msg : KernMessage)
    (wsr : Option Nat) (cpo : Bool) (t : Bool)
    (h : (process_kern_message hasStream s (some msg) wsr cpo).outcome = KOutcome.ok t) :
    sendAckCount (process_kern_message hasStream s (some msg) wsr cpo).trace
      = if isTerminal msg || isStandby msg s.kernel_state then 0 else 1 := by
  cases msg <;> cases hs : s.kernel_state <;> cases hasStream <;>
    simp_all [process_kern_message, process_kern_running, isTerminal, isStandby,
      sendAckCount, isSendOrAck] <;>
    (try rcases wsr with _ | id) <;>
    (try split at h) <;>
    simp_all [flush_log_buffer, isSendOrAck, List.filter]

/-- C5 witness: the amended discipline at a concrete `NowInitRequest` in
Running state, whose reply is a single `kern_send`. -/
theorem C5_witness :
    sendAckCount (process_kern_message true (sessionIn KernelState.Running)
        (some KernMessage.NowInitRequest) none true).trace = 1 := by
  have h := C5_send_ack_discipline true (sessionIn KernelState.Running)
    KernMessage.NowInitRequest none true false rfl
  simpa [isTerminal, isStandby, sessionIn] using h

/-- C7: on a terminal kernel message (`RunFinished` or `RunException`)
in Running state the handler stops the kernel CPU, releases all
outstanding cache borrows via `unborrow`, and sets `kernel_state` to
Absent, so no borrow survives into the next kernel load. -/
theorem C7_termination_cleanup (hasStream : Bool) (s : Session)
    (wsr : Option Nat) (cpo : Bool) (n m f fn : String) (p : Int) (ln col : Nat)
    (hst : s.kernel_state = KernelState.Running) :
    ((process_kern_message hasStream s (some KernMessage.RunFinished) wsr
        cpo).session.kernel_state = KernelState.Absent) ∧
    ((process_kern_message hasStream s (some KernMessage.RunFinished) wsr
        cpo).session.congress.borrows = 0) ∧
    (Act.kernelStop ∈ (process_kern_message hasStream s (some KernMessage.RunFinished) wsr
        cpo).trace) ∧
    (Act.unborrow ∈ (process_kern_message hasStream s (some KernMessage.RunFinished) wsr
        cpo).trace) ∧
    ((process_kern_message hasStream s
        (some (KernMessage.RunException n m f fn p ln col)) wsr
        cpo).session.kernel_state = KernelState.Absent) ∧
    ((process_kern_message hasStream s
        (some (KernMessage.RunException n m f fn p ln col)) wsr
        cpo).session.congress.borrows = 0) ∧
    (Act.kernelStop ∈ (process_kern_message hasStream s
        (some (KernMessage.RunException n m f fn p ln col)) wsr cpo).trace) ∧
    (Act.unborrow ∈ (process_kern_message hasStream s
        (some (KernMessage.RunException n m f fn p ln col)) wsr cpo).trace) := by
  cases hasStream <;>
    simp [process_kern_message, process_kern_running, hst]

/-- C7 witness: the cleanup at a concrete Running session holding one
outstanding cache borrow. -/
theorem C7_witness :
    ((process_kern_message true ⟨⟨0, 1⟩, KernelState.Running, ""⟩
        (some KernMessage.RunFinished) none true).session.kernel_state
      = KernelState.Absent) ∧
    ((process_kern_message true ⟨⟨0, 1⟩, KernelState.Running, ""⟩
        (some KernMessage.RunFinished) none true).session.congress.borrows = 0) ∧
    (Act.kernelStop ∈ (process_kern_message true ⟨⟨0, 1⟩, KernelState.Running, ""⟩
        (some KernMessage.RunFinished) none true).trace) ∧
    (Act.unborrow ∈ (process_kern_message true ⟨⟨0, 1⟩, KernelState.Running, ""⟩
        (some KernMessage.RunFinished) none true).trace) := by
  have h := C7_termination_cleanup true ⟨⟨0, 1⟩, KernelState.Running, ""⟩ none true
    "" "" "" "" 0 0 0 rfl
  exact ⟨h.1, h.2.1, h.2.2.1, h.2.2.2.1⟩

/-- Helper: the host-message handler either leaves `kernel_state`
unchanged or moves it along a permitted edge. -/
theorem host_edge_ok (req : HostRequest) (env : HostEnv) (s : Session) :
    (process_host_message req env s).session.kernel_state = s.kernel_state ∨
      allowedEdge s.kernel_state
        (process_host_message req env s).session.kernel_state = true := by
  rcases s with ⟨c, st, lb⟩
  cases req <;> cases st <;>
    simp [process_host_message, kern_load, kern_run, Session.running, allowedEdge] <;>
    (repeat' split) <;> simp_all [allowedEdge]

/-- Helper: the kernel-message handler either leaves `kernel_state`
unchanged or moves it along a permitted edge. -/
theorem kern_edge_ok (hasStream : Bool) (s : Session) (msg : Option KernMessage)
    (wsr : Option Nat) (cpo : Bool) :
    (process_kern_message hasStream s msg wsr cpo).session.kernel_state
        = s.kernel_state ∨
      allowedEdge s.kernel_state
        (process_kern_message hasStream s msg wsr cpo).session.kernel_state = true := by
  rcases msg with _ | m
  · simp [process_kern_message]
  · rcases s with ⟨c, st, lb⟩
    cases m <;> cases st <;>
      simp [process_kern_message, process_kern_running, allowedEdge] <;>
      (repeat' split) <;> simp_all [allowedEdge]

/-- C2: every change of `kernel_state` performed by the host-message or
kernel-message handler follows a permitted edge of the graph
Absent → Loaded (successful load), Loaded → Running (RunKernel),
Running → RpcWait (synchronous RpcSend), RpcWait → Running
(RpcReply / RpcException), Running → Absent (RunFinished /
RunException); no other state change occurs. -/
theorem C2_kernel_state_graph (req : HostRequest) (env : HostEnv) (s : Session)
    (hasStream : Bool) (msg : Option KernMessage) (wsr : Option Nat) (cpo : Bool) :
    ((process_host_message req env s).session.kernel_state = s.kernel_state ∨
      allowedEdge s.kernel_state
        (process_host_message req env s).session.kernel_state = true) ∧
    ((process_kern_message hasStream s msg wsr cpo).session.kernel_state
        = s.kernel_state ∨
      allowedEdge s.kernel_state
        (process_kern_message hasStream s msg wsr cpo).session.kernel_state = true) :=
  ⟨host_edge_ok req env s, kern_edge_ok hasStream s msg wsr cpo⟩

/-- Helper: when the mailbox delivers exactly the `RpcRecvRequest`s the
decoder chain asks for, the chain succeeds with the expected
send/receive trace and consumes the whole queue. -/
theorem rpc_recv_chain_spec (pairs : List (Nat × Nat)) :
    rpc_recv_chain (pairs.map (fun p => some (KernMessage.RpcRecvRequest p.2)))
        (pairs.map Prod.fst)
      = (true, rpcChainTrace pairs, []) := by
  induction pairs with
  | nil => rfl
  | cons p rest ih =>
      rcases p with ⟨size, slot⟩
      simp [rpc_recv_chain, rpcChainTrace, ih]

/-- C3: on a host `RpcReply` received in RpcWait, the handler first
receives the pending `RpcRecvRequest(slot)` from the kernel; then for
each size the decoder `recv_return` passes to its continuation it sends
`RpcRecvReply(Ok(size))` and receives the next `RpcRecvRequest`; then it
terminates the chain with `RpcRecvReply(Ok(0))` and finally sets
`kernel_state` to Running. -/
theorem C3_rpc_reply_chain (tag : String) (env : HostEnv) (s : Session)
    (slot0 : Nat) (pairs : List (Nat × Nat))
    (hst : s.kernel_state = KernelState.RpcWait)
    (hq : env.kernQueue = some (KernMessage.RpcRecvRequest slot0)
        :: pairs.map (fun p => some (KernMessage.RpcRecvRequest p.2)))
    (hsz : env.recvReturnSizes = pairs.map Prod.fst) :
    process_host_message (HostRequest.RpcReply tag) env s =
      ⟨true, { s with kernel_state := KernelState.Running },
        Act.kernRecv (KernMessage.RpcRecvRequest slot0)
          :: (rpcChainTrace pairs ++ [Act.kernSend (KernSendMsg.RpcRecvReplyOk 0)])⟩ := by
  simp [process_host_message, hst, hq, hsz, rpc_recv_chain_spec]

/-- C3 witness: a two-allocation chain (sizes 4 then 0 terminator) with
slots 7 and 8, at a concrete RpcWait session. -/
theorem C3_witness :
    process_host_message (HostRequest.RpcReply "i")
        ⟨[some (KernMessage.RpcRecvRequest 7), some (KernMessage.RpcRecvRequest 8)],
          [4], true, true, ""⟩
        (sessionIn KernelState.RpcWait)
      = ⟨true, sessionIn KernelState.Running,
          [Act.kernRecv (KernMessage.RpcRecvRequest 7),
           Act.kernSend (KernSendMsg.RpcRecvReplyOk 4),
           Act.kernRecv (KernMessage.RpcRecvRequest 8),
           Act.kernSend (KernSendMsg.RpcRecvReplyOk 0)]⟩ := by
  have h := C3_rpc_reply_chain "i"
    ⟨[some (KernMessage.RpcRecvRequest 7), some (KernMessage.RpcRecvRequest 8)],
      [4], true, true, ""⟩
    (sessionIn KernelState.RpcWait) 7 [(4, 8)] rfl rfl rfl
  simpa [rpcChainTrace, sessionIn] using h

/-- C6: in every iteration of the host-kernel worker loop the trace
decomposes as the full drain of the async RPC queue, then the trace of
at most one host-message step, then the trace of at most one
kernel-message step, then the trace of the end-of-iteration checks — in
that order (a segment is empty when the iteration stopped earlier or the
corresponding source had nothing pending). -/
theorem C6_worker_iteration_order (env : WorkerEnv) (s : Session) :
    ∃ kTr cTr,
      iterTrace (host_kernel_worker_iter env s) =
        drain_rpc_queue env.rpcQueue ++ (worker_host_phase env s).trace ++ kTr ++ cTr ∧
      (kTr = [] ∨ kTr = (worker_kern_phase env (worker_host_phase env s).session).trace) ∧
      (cTr = [] ∨ cTr = (worker_checks env
          (worker_kern_phase env (worker_host_phase env s).session).session).2) := by
  by_cases hok : (worker_host_phase env s).ok
  · cases hkout : (worker_kern_phase env (worker_host_phase env s).session).outcome with
    | panic =>
        refine ⟨(worker_kern_phase env (worker_host_phase env s).session).trace, [],
          ?_, Or.inr rfl, Or.inl rfl⟩
        simp [host_kernel_worker_iter, hok, hkout, iterTrace]
    | err =>
        refine ⟨(worker_kern_phase env (worker_host_phase env s).session).trace, [],
          ?_, Or.inr rfl, Or.inl rfl⟩
        simp [host_kernel_worker_iter, hok, hkout, iterTrace]
    | ok t =>
        by_cases hc : (worker_checks env
            (worker_kern_phase env (worker_host_phase env s).session).session).1
        · refine ⟨(worker_kern_phase env (worker_host_phase env s).session).trace,
            (worker_checks env
              (worker_kern_phase env (worker_host_phase env s).session).session).2,
            ?_, Or.inr rfl, Or.inr rfl⟩
          simp [host_kernel_worker_iter, hok, hkout, hc, iterTrace]
        · refine ⟨(worker_kern_phase env (worker_host_phase env s).session).trace,
            (worker_checks env
              (worker_kern_phase env (worker_host_phase env s).session).session).2,
            ?_, Or.inr rfl, Or.inr rfl⟩
          simp [host_kernel_worker_iter, hok, hkout, hc, iterTrace]
  · refine ⟨[], [], ?_, Or.inl rfl, Or.inl rfl⟩
    simp [host_kernel_worker_iter, hok, iterTrace]

/-- Helper: the async RPC drain emits only `RpcRequest(async)` headers
and raw payloads, never a watchdog or clock failure reply. -/
theorem drain_no_check (q : List Nat) (a : Act) (ha : a ∈ drain_rpc_queue q) :
    isCheckReply a = false := by
  induction q with
  | nil => simp [drain_rpc_queue] at ha
  | cons x rest ih =>
      rw [show drain_rpc_queue (x :: rest)
            = process_kern_queued_rpc_trace ++ drain_rpc_queue rest by
          simp [drain_rpc_queue]] at ha
      rcases List.mem_append.1 ha with h | h
      · simp [process_kern_queued_rpc_trace] at h
        rcases h with rfl | rfl <;> rfl
      · exact ih h

/-- Helper: the `recv_return` allocator chain emits only `kern_send`s
and mailbox receives, never a watchdog or clock failure reply. -/
theorem chain_no_check (sizes : List Nat) (queue : List (Option KernMessage)) (a : Act)
    (ha : a ∈ (rpc_recv_chain queue sizes).2.1) : isCheckReply a = false := by
  induction sizes generalizing queue with
  | nil => simp [rpc_recv_chain] at ha
  | cons sz rest ih =>
      rcases queue with _ | ⟨mo, q⟩
      · simp [rpc_recv_chain] at ha
        subst ha
        rfl
      · rcases mo with _ | m
        · simp [rpc_recv_chain] at ha
          subst ha
          rfl
        · cases m <;> simp [rpc_recv_chain] at ha <;>
            first
            | (rcases ha with rfl | rfl | h
               · rfl
               · rfl
               · exact ih q h)
            | (rcases ha with rfl | rfl <;> rfl)

/-- Helper: the host-message handler never emits `WatchdogExpired` or
`ClockFailure`. -/
theorem host_no_check (req : HostRequest) (env : HostEnv) (s : Session) (a : Act)
    (ha : a ∈ (process_host_message req env s).trace) : isCheckReply a = false := by
  cases req <;>
    simp [process_host_message, kern_load, kern_run] at ha <;>
    (repeat' split at ha) <;>
    simp_all [isCheckReply]
  all_goals casesm* _ ∨ _
  all_goals
    first
    | exact chain_no_check _ _ _ (by assumption)
    | simp_all [isCheckReply]

/-- Helper: the kernel-message handler never emits `WatchdogExpired` or
`ClockFailure`. -/
theorem kern_no_check (hasStream : Bool) (s : Session) (msg : Option KernMessage)
    (wsr : Option Nat) (cpo : Bool) (a : Act)
    (ha : a ∈ (process_kern_message hasStream s msg wsr cpo).trace) :
    isCheckReply a = false := by
  rcases msg with _ | m
  · simp [process_kern_message] at ha
  · cases m <;> cases hs : s.kernel_state <;> cases hasStream <;>
      simp [process_kern_message, process_kern_running] at ha <;>
      (repeat' split at ha) <;>
      simp_all [isCheckReply]
    all_goals casesm* _ ∨ _
    all_goals simp_all [isCheckReply]

/-- Helper: the host phase of a worker iteration never emits a watchdog
or clock failure reply. -/
theorem worker_host_no_check (env : WorkerEnv) (s : Session) (a : Act)
    (ha : a ∈ (worker_host_phase env s).trace) : isCheckReply a = false := by
  unfold worker_host_phase at ha
  split at ha
  · exact host_no_check _ _ _ _ ha
  · simp at ha

/-- Helper: the kernel phase of a worker iteration never emits a
watchdog or clock failure reply. -/
theorem worker_kern_no_check (env : WorkerEnv) (s : Session) (a : Act)
    (ha : a ∈ (worker_kern_phase env s).trace) : isCheckReply a = false := by
  unfold worker_kern_phase at ha
  split at ha
  · exact kern_no_check _ _ _ _ _ _ ha
  · simp at ha

/-- Helper: the end-of-iteration checks do nothing outside Running. -/
theorem worker_checks_not_running (env : WorkerEnv) (s : Session)
    (h : s.kernel_state ≠ KernelState.Running) : worker_checks env s = (true, []) := by
  simp [worker_checks, h]

/-- C10: in the host-kernel worker loop the watchdog-expiry and RTIO
clock checks run only when `kernel_state` is exactly Running after the
host and kernel steps: if that state is not Running, the iteration's
trace contains no `WatchdogExpired` and no `ClockFailure` reply, even
when the watchdog has expired or the clock has failed; and when it is
Running with an expired watchdog (and the iteration reached the checks),
`WatchdogExpired` is emitted. -/
theorem C10_checks_only_when_running (env : WorkerEnv) (s : Session) :
    ((worker_kern_phase env (worker_host_phase env s).session).session.kernel_state
        ≠ KernelState.Running →
      ∀ a ∈ iterTrace (host_kernel_worker_iter env s), isCheckReply a = false) ∧
    ((worker_host_phase env s).ok = true →
      ∀ t, (worker_kern_phase env (worker_host_phase env s).session).outcome
          = KOutcome.ok t →
        (worker_kern_phase env (worker_host_phase env s).session).session.kernel_state
            = KernelState.Running →
        env.watchdogExpired = true →
        Act.hostWrite HostReply.WatchdogExpired
          ∈ iterTrace (host_kernel_worker_iter env s)) := by
  constructor
  · intro hmid a ha
    by_cases hok : (worker_host_phase env s).ok
    · cases hkout : (worker_kern_phase env (worker_host_phase env s).session).outcome with
      | panic =>
          simp [host_kernel_worker_iter, hok, hkout, iterTrace] at ha
          casesm* _ ∨ _ <;>
            first
            | exact drain_no_check _ _ (by assumption)
            | exact worker_host_no_check _ _ _ (by assumption)
            | exact worker_kern_no_check _ _ _ (by assumption)
      | err =>
          simp [host_kernel_worker_iter, hok, hkout, iterTrace] at ha
          casesm* _ ∨ _ <;>
            first
            | exact drain_no_check _ _ (by assumption)
            | exact worker_host_no_check _ _ _ (by assumption)
            | exact worker_kern_no_check _ _ _ (by assumption)
      | ok t =>
          simp [host_kernel_worker_iter, hok, hkout, iterTrace,
            worker_checks_not_running env _ hmid] at ha
          casesm* _ ∨ _ <;>
            first
            | exact drain_no_check _ _ (by assumption)
            | exact worker_host_no_check _ _ _ (by assumption)
            | exact worker_kern_no_check _ _ _ (by assumption)
    · simp [host_kernel_worker_iter, hok, iterTrace] at ha
      casesm* _ ∨ _ <;>
        first
        | exact drain_no_check _ _ (by assumption)
        | exact worker_host_no_check _ _ _ (by assumption)
  · intro hok t hkout hrun hwd
    simp [host_kernel_worker_iter, hok, hkout, iterTrace, worker_checks, hrun, hwd]

/-- C10 witness: a Running session with an expired watchdog, no host
data and no mailbox message — the iteration emits `WatchdogExpired`. -/
theorem C10_witness :
    Act.hostWrite HostReply.WatchdogExpired ∈
      iterTrace (host_kernel_worker_iter
        ⟨[], false, HostRequest.Ident, hostEnv0, false, none, none, true, true, true⟩
        (sessionIn KernelState.Running)) :=
  (C10_checks_only_when_running
    ⟨[], false, HostRequest.Ident, hostEnv0, false, none, none, true, true, true⟩
    (sessionIn KernelState.Running)).2 rfl false rfl rfl rfl
